import Mathlib

/-!
# Verification of the `logger` repository's output manager (`core/output.go`)

This file gives a shallow embedding of the output-management subsystem of the
`victorximenis/logger` Go repository and proves properties of it.

The embedding covers:

* the path helpers `filepath.Dir` / `filepath.Base` (Unix semantics, with
  `filepath.Clean` realised by the standard component-stack algorithm) as used
  by `validateConfig`;
* `OutputConfig` and `validateConfig`;
* `OutputManager` with its operations `NewOutputManager`, `setupFileOutput`,
  `UpdateConfig`, `Close`, `RotateWithRecovery`, `attemptRecovery`,
  `ForceRotationIfNeeded`, `AddRotationHook`, `RemoveAllRotationHooks`,
  `GetRotationStats`, `GetConfig`;
* the hook dispatcher `triggerRotationHooks` with per-hook panic containment.

Side effects (directory creation, `os.Stat`, `lumberjack.Logger.Rotate`,
`Close`) are modelled by an environment oracle `Env` supplying each call's
outcome, and every operation additionally returns the list of filesystem
effects it attempted, so that "no side effect happened" is a provable
statement.  In-place mutation of the Go receiver is modelled by returning the
final manager state together with the returned error, so that partially
updated states on error paths are observable.
-/

namespace Logger

/-! ## Path model: Go `path/filepath` on Unix -/

/-- Split a character list on `'/'` (like `strings.Split` on `"/"`).
`splitOnSlash []` is `[[]]`, mirroring Go's split of the empty string. -/
def splitOnSlash : List Char → List (List Char)
  | [] => [[]]
  | c :: rest =>
    if c = '/' then [] :: splitOnSlash rest
    else
      match splitOnSlash rest with
      | [] => [[c]]
      | g :: gs => (c :: g) :: gs

/-- One step of the component-stack form of Go's `filepath.Clean`:
empty and `"."` components are dropped, `".."` pops a non-`".."` entry
(or is dropped at the root, or kept when nothing can be popped outside the
root), and any other component is pushed. -/
def cleanPush (rooted : Bool) (stack : List (List Char)) (comp : List Char) :
    List (List Char) :=
  if comp = [] ∨ comp = ['.'] then stack
  else if comp = ['.', '.'] then
    match stack with
    | [] => if rooted then [] else [['.', '.']]
    | top :: rest => if top = ['.', '.'] then comp :: top :: rest else rest
  else comp :: stack

/-- Join path components with `'/'`. -/
def joinSlash : List (List Char) → List Char
  | [] => []
  | [g] => g
  | g :: gs => g ++ '/' :: joinSlash gs

/-- Go's `filepath.Clean` on Unix, via the component-stack algorithm. -/
def goCleanList (cs : List Char) : List Char :=
  if cs = [] then ['.']
  else
    let rooted := cs.head? = some '/'
    let stack := (splitOnSlash cs).foldl (cleanPush rooted) []
    let body := joinSlash stack.reverse
    if rooted then
      if body = [] then ['/'] else '/' :: body
    else
      if body = [] then ['.'] else body

/-- All characters of the path up to and including the last `'/'`
(empty when the path has no `'/'`); this is the slice `path[:i+1]`
taken by Go's `filepath.Dir` before cleaning. -/
def takeThroughLastSlash (cs : List Char) : List Char :=
  (cs.reverse.dropWhile (fun c => ¬ c = '/')).reverse

/-- Go's `filepath.Dir` on Unix: everything up to the last separator, cleaned;
`"."` when there is no separator. -/
def goFilepathDir (p : String) : String :=
  String.mk (goCleanList (takeThroughLastSlash p.data))

/-- Go's `filepath.Base` on Unix: strip trailing slashes, then the part after
the last separator; `"."` for the empty path, `"/"` for an all-slash path. -/
def goFilepathBase (p : String) : String :=
  if p.data = [] then "."
  else
    let stripped := (p.data.reverse.dropWhile (fun c => c = '/')).reverse
    if stripped = [] then "/"
    else String.mk ((stripped.reverse.takeWhile (fun c => ¬ c = '/')).reverse)

/-- Go's `strings.HasSuffix`. -/
def goHasSuffix (p suffix : String) : Bool :=
  suffix.data.isSuffixOf p.data

/-! ## Configuration and errors -/

/-- Model of `OutputConfig` from `core/output.go`: destination file path (empty means
console only), rotation thresholds and naming flags. -/
structure OutputConfig where
  filePath : String
  maxSize : Int
  maxAge : Int
  maxBackups : Int
  compress : Bool
  localTime : Bool
deriving DecidableEq, Repr

/-- The errors produced in `core/output.go`.  Each constructor corresponds to
one `fmt.Errorf` site; wrapping constructors model `%w` wrapping, and opaque
collaborator errors (`os.MkdirAll`, `Close`, `lumberjack.Rotate`) are modelled
by dedicated constructors. -/
inductive GoError where
  | dirCannotBeEmpty
  | filenameCannotBeEmpty
  | maxSizeNotPositive (got : Int)
  | maxAgeNegative (got : Int)
  | maxBackupsNegative (got : Int)
  | mkdirOsError (dir : String)
  | failedToCreateLogDirectory (dir : String) (cause : GoError)
  | closeOsError
  | rotateOsError
  | statOsError
  | invalidOutputConfiguration (cause : GoError)
  | failedToSetupFileOutput (cause : GoError)
  | invalidNewConfiguration (cause : GoError)
  | failedToCloseCurrentFileWriter (cause : GoError)
  | failedToSetupNewFileOutput (cause : GoError)
  | noFileWriterConfigured
  | writerDoesNotSupportRotation
  | rotationFailedAndRecoveryFailed (rotationError recoveryError : GoError)
  | rotationFailedButRecoverySucceeded (rotationError : GoError)
  | notInFileMode
  | failedToGetFileStats (cause : GoError)
deriving DecidableEq, Repr

instance {ε α : Type} [DecidableEq ε] [DecidableEq α] : DecidableEq (Except ε α)
  | .ok a, .ok b => decidable_of_iff (a = b) (by simp)
  | .ok _, .error _ => isFalse (by simp)
  | .error _, .ok _ => isFalse (by simp)
  | .error e, .error f => decidable_of_iff (e = f) (by simp)

/-- Model of `validateConfig` from `core/output.go`, translated check for check:
path checks run only when `filePath` is non-empty (the conjunct
`filePath ≠ ""` on each branch mirrors the enclosing `if`), and the numeric
checks follow. -/
def validateConfig (c : OutputConfig) : Except GoError Unit :=
  if c.filePath ≠ "" ∧
      (goFilepathDir c.filePath = "" ∨ goFilepathDir c.filePath = ".") then
    .error GoError.dirCannotBeEmpty
  else if c.filePath ≠ "" ∧
      (goHasSuffix c.filePath "/" = true ∨ goHasSuffix c.filePath "\\" = true) then
    .error GoError.filenameCannotBeEmpty
  else if c.filePath ≠ "" ∧
      (goFilepathBase c.filePath = "" ∨ goFilepathBase c.filePath = "." ∨
        goFilepathBase c.filePath = "..") then
    .error GoError.filenameCannotBeEmpty
  else if c.maxSize ≤ 0 then
    .error (GoError.maxSizeNotPositive c.maxSize)
  else if c.maxAge < 0 then
    .error (GoError.maxAgeNegative c.maxAge)
  else if c.maxBackups < 0 then
    .error (GoError.maxBackupsNegative c.maxBackups)
  else
    .ok ()

example : validateConfig ⟨"/tmp/test.log", 100, 7, 5, false, false⟩ = .ok () := by decide
example : validateConfig ⟨"", 100, 7, 5, false, false⟩ = .ok () := by decide
example : validateConfig ⟨"test.log", 100, 0, 0, false, false⟩ =
    .error GoError.dirCannotBeEmpty := by decide
example : validateConfig ⟨"/tmp/", 100, 0, 0, false, false⟩ =
    .error GoError.filenameCannotBeEmpty := by decide
example : validateConfig ⟨"/tmp/test.log", 0, 0, 0, false, false⟩ =
    .error (GoError.maxSizeNotPositive 0) := by decide
example : validateConfig ⟨"/tmp/test.log", 100, -1, 0, false, false⟩ =
    .error (GoError.maxAgeNegative (-1)) := by decide
example : validateConfig ⟨"/tmp/test.log", 100, 7, -1, false, false⟩ =
    .error (GoError.maxBackupsNegative (-1)) := by decide
example : goFilepathDir "logs/app.log" = "logs" := by decide
example : goFilepathDir "/var/log/app.log" = "/var/log" := by decide
example : goFilepathDir "app.log" = "." := by decide
example : goFilepathBase "logs/.." = ".." := by decide
example : goFilepathDir "logs/.." = "logs" := by decide

/-! ## Writers, hooks and manager state -/

/-- An `io.WriteCloser` held by the manager: either a `lumberjack.Logger`
(the rotation primitive, remembering the configuration it was built from —
`Filename`, `MaxSize`, `MaxAge`, `MaxBackups`, `Compress`, `LocalTime`), or
some other writer that does not support rotation. -/
inductive Writer where
  | lumberjack (cfg : OutputConfig)
  | other
deriving DecidableEq, Repr

/-- What a hook body does when invoked: return normally, or panic. -/
inductive HookOutcome where
  | normal
  | panics (msg : String)
deriving DecidableEq, Repr

/-- A rotation event, as built inside `RotateWithRecovery`. -/
structure RotationEvent where
  timestamp : Nat
  oldFile : String
  newFile : String
  fileSize : Int
  success : Bool
  error : Option GoError
deriving DecidableEq, Repr

/-- A registered rotation hook: an identifier plus its behaviour on a given
event.  The behaviour is a function because a Go hook may inspect the event. -/
structure Hook where
  id : Nat
  behavior : RotationEvent → HookOutcome

/-- The `OutputManager` state (time is modelled by `Nat`, with `0` standing
for Go's zero `time.Time`). -/
structure OutputManager where
  config : OutputConfig
  fileWriter : Option Writer
  isFileMode : Bool
  rotationHooks : List Hook
  lastRotation : Nat
  rotationCount : Int

/-- Outcomes of the external collaborators for one public call: whether
`os.MkdirAll` on a given directory succeeds, what `os.Stat` on a given path
reports (`none` = error), whether `lumberjack.Logger.Rotate` succeeds, whether
`Close` on the current writer succeeds, and what `time.Now()` returns. -/
structure Env where
  mkdirAllOk : String → Bool
  statSize : String → Option Int
  rotateOk : Bool
  closeOk : Bool
  now : Nat

/-- A filesystem / resource effect attempted by an operation. -/
inductive FsEffect where
  | mkdirAll (dir : String)
  | statFile (path : String)
  | rotateFile (path : String)
  | closeWriter
deriving DecidableEq, Repr

/-! ## Hook dispatcher -/

/-- Running one hook body on an event: a panic is an exception. -/
def runHook (h : Hook) (e : RotationEvent) : Except String Unit :=
  match h.behavior e with
  | .normal => .ok ()
  | .panics msg => .error msg

/-- The record of one supervised hook invocation: which hook ran, on which
event, and whether its panic was recovered. -/
structure HookRun where
  hookId : Nat
  event : RotationEvent
  panicked : Bool

/-- One goroutine of `triggerRotationHooks`: run the hook under a deferred
`recover`, so a panic is contained at the task boundary (surfaced only as a
stderr diagnostic) and never escapes. -/
def superviseHook (h : Hook) (e : RotationEvent) : HookRun :=
  match runHook h e with
  | .ok _ => ⟨h.id, e, false⟩
  | .error _ => ⟨h.id, e, true⟩

/-- Model of `triggerRotationHooks`: snapshot the registered hook list and dispatch the
event to every snapshotted hook, each in its own supervised task. -/
def triggerRotationHooks (om : OutputManager) (event : RotationEvent) :
    List HookRun :=
  om.rotationHooks.map (fun h => superviseHook h event)

/-! ## Manager operations -/

/-- Model of `setupFileOutput`: ensure the log directory exists (`os.MkdirAll`), then
bind a `lumberjack.Logger` built from the current configuration.  Returns the
(possibly unchanged) manager, the error, and the attempted effects. -/
def setupFileOutput (env : Env) (om : OutputManager) :
    OutputManager × Option GoError × List FsEffect :=
  let dir := goFilepathDir om.config.filePath
  if env.mkdirAllOk dir then
    ({ om with fileWriter := some (Writer.lumberjack om.config) }, none,
      [FsEffect.mkdirAll dir])
  else
    (om, some (GoError.failedToCreateLogDirectory dir (GoError.mkdirOsError dir)),
      [FsEffect.mkdirAll dir])

/-- Result of `NewOutputManager`: the returned manager (`none` on error), the
error, and the attempted effects. -/
structure NewResult where
  om : Option OutputManager
  err : Option GoError
  trace : List FsEffect

/-- Model of `NewOutputManager`: validate, then set up file output when a file path is
given. -/
def NewOutputManager (env : Env) (config : OutputConfig) : NewResult :=
  let om : OutputManager :=
    { config := config, fileWriter := none, isFileMode := false,
      rotationHooks := [], lastRotation := 0, rotationCount := 0 }
  match validateConfig config with
  | .error e => ⟨none, some (GoError.invalidOutputConfiguration e), []⟩
  | .ok _ =>
    if config.filePath ≠ "" then
      match setupFileOutput env om with
      | (_, some e, tr) => ⟨none, some (GoError.failedToSetupFileOutput e), tr⟩
      | (om2, none, tr) => ⟨some { om2 with isFileMode := true }, none, tr⟩
    else ⟨some om, none, []⟩

/-- Result of a manager operation: the manager's final state (the Go methods
mutate the receiver in place, so error paths may leave a changed state), the
returned error, the rotation events dispatched, the supervised hook runs, and
the attempted effects. -/
structure OpResult where
  om : OutputManager
  err : Option GoError
  events : List RotationEvent
  hookRuns : List HookRun
  trace : List FsEffect

/-- Model of `UpdateConfig`: validate the new configuration, close the current writer
if any (clearing `fileWriter`/`isFileMode` only after a successful close),
store the new configuration, and set up the new file output if needed.  Note
the receiver is mutated in place, so a setup failure leaves the new
configuration stored and no writer bound. -/
def UpdateConfig (env : Env) (om : OutputManager) (newConfig : OutputConfig) :
    OpResult :=
  match validateConfig newConfig with
  | .error e => ⟨om, some (GoError.invalidNewConfiguration e), [], [], []⟩
  | .ok _ =>
    match om.fileWriter with
    | some _ =>
      if env.closeOk then
        let om1 := { om with fileWriter := none, isFileMode := false,
                             config := newConfig }
        if newConfig.filePath ≠ "" then
          match setupFileOutput env om1 with
          | (_, some e, tr) =>
            ⟨om1, some (GoError.failedToSetupNewFileOutput e), [], [],
              FsEffect.closeWriter :: tr⟩
          | (om2, none, tr) =>
            ⟨{ om2 with isFileMode := true }, none, [], [],
              FsEffect.closeWriter :: tr⟩
        else ⟨om1, none, [], [], [FsEffect.closeWriter]⟩
      else
        ⟨om, some (GoError.failedToCloseCurrentFileWriter GoError.closeOsError),
          [], [], [FsEffect.closeWriter]⟩
    | none =>
      let om1 := { om with config := newConfig }
      if newConfig.filePath ≠ "" then
        match setupFileOutput env om1 with
        | (_, some e, tr) =>
          ⟨om1, some (GoError.failedToSetupNewFileOutput e), [], [], tr⟩
        | (om2, none, tr) =>
          ⟨{ om2 with isFileMode := true }, none, [], [], tr⟩
      else ⟨om1, none, [], [], []⟩

/-- Model of `Close`: close the file writer if present; the fields are not changed. -/
def Close (env : Env) (om : OutputManager) :
    OutputManager × Option GoError × List FsEffect :=
  match om.fileWriter with
  | some _ =>
    (om, if env.closeOk then none else some GoError.closeOsError,
      [FsEffect.closeWriter])
  | none => (om, none, [])

/-- Model of `GetConfig`. -/
def GetConfig (om : OutputManager) : OutputConfig := om.config

/-- Model of `GetRotationStats`. -/
def GetRotationStats (om : OutputManager) : Nat × Int :=
  (om.lastRotation, om.rotationCount)

/-- Model of `AddRotationHook`. -/
def AddRotationHook (om : OutputManager) (hook : Hook) : OutputManager :=
  { om with rotationHooks := om.rotationHooks ++ [hook] }

/-- Model of `RemoveAllRotationHooks`. -/
def RemoveAllRotationHooks (om : OutputManager) : OutputManager :=
  { om with rotationHooks := [] }

/-- Model of `attemptRecovery`: close the current writer (best effort, the result is
discarded and the field is untouched) and recreate it via `setupFileOutput`
from the current configuration. -/
def attemptRecovery (env : Env) (om : OutputManager) :
    OutputManager × Option GoError × List FsEffect :=
  let closeTrace : List FsEffect :=
    match om.fileWriter with
    | some _ => [FsEffect.closeWriter]
    | none => []
  match setupFileOutput env om with
  | (om2, err, tr) => (om2, err, closeTrace ++ tr)

/-- Model of `RotateWithRecovery`: fail fast without a writer; require the writer to be
the lumberjack primitive; snapshot the current file size (best effort, `0` on
stat error); rotate; update statistics on success only; dispatch the event to
the hooks regardless of outcome; on failure attempt recovery and report a
composite or recovered error. -/
def RotateWithRecovery (env : Env) (om : OutputManager) : OpResult :=
  match om.fileWriter with
  | none => ⟨om, some GoError.noFileWriterConfigured, [], [], []⟩
  | some Writer.other =>
    ⟨om, some GoError.writerDoesNotSupportRotation, [], [], []⟩
  | some (Writer.lumberjack _) =>
    let fileSize : Int :=
      match env.statSize om.config.filePath with
      | some s => s
      | none => 0
    let rotationTime := env.now
    let event : RotationEvent :=
      { timestamp := rotationTime
        oldFile := om.config.filePath
        newFile := om.config.filePath
        fileSize := fileSize
        success := env.rotateOk
        error := if env.rotateOk then none else some GoError.rotateOsError }
    let om1 :=
      if env.rotateOk then
        { om with lastRotation := rotationTime,
                  rotationCount := om.rotationCount + 1 }
      else om
    let hookRuns := triggerRotationHooks om1 event
    let baseTrace :=
      [FsEffect.statFile om.config.filePath, FsEffect.rotateFile om.config.filePath]
    if env.rotateOk then
      ⟨om1, none, [event], hookRuns, baseTrace⟩
    else
      match attemptRecovery env om1 with
      | (om2, some recoveryErr, tr) =>
        ⟨om2, some (GoError.rotationFailedAndRecoveryFailed
            GoError.rotateOsError recoveryErr), [event], hookRuns,
          baseTrace ++ tr⟩
      | (om2, none, tr) =>
        ⟨om2, some (GoError.rotationFailedButRecoverySucceeded
            GoError.rotateOsError), [event], hookRuns, baseTrace ++ tr⟩

/-- Model of `Rotate`: delegates to `RotateWithRecovery`. -/
def Rotate (env : Env) (om : OutputManager) : OpResult :=
  RotateWithRecovery env om

/-- Model of `ForceRotationIfNeeded`: a no-op unless in file mode with a writer; stat
the current file (a stat error is treated as "no rotation needed"); rotate
exactly when the size is at or above `MaxSize` megabytes. -/
def ForceRotationIfNeeded (env : Env) (om : OutputManager) : OpResult :=
  if om.isFileMode = false ∨ om.fileWriter = none then
    ⟨om, none, [], [], []⟩
  else
    match env.statSize om.config.filePath with
    | none => ⟨om, none, [], [], [FsEffect.statFile om.config.filePath]⟩
    | some size =>
      let maxSizeBytes : Int := om.config.maxSize * 1024 * 1024
      if size ≥ maxSizeBytes then
        let r := RotateWithRecovery env om
        { r with trace := FsEffect.statFile om.config.filePath :: r.trace }
      else ⟨om, none, [], [], [FsEffect.statFile om.config.filePath]⟩

/-! ## Reachable manager states and the writer invariant -/

/-- Manager states reachable through the public interface: a successfully
constructed manager, followed by any sequence of public operations (including
their failing runs, since the Go methods mutate the receiver in place). -/
inductive Reachable : OutputManager → Prop where
  | created (env : Env) (cfg : OutputConfig) (om : OutputManager)
      (h : (NewOutputManager env cfg).om = some om) : Reachable om
  | updated (env : Env) (om : OutputManager) (cfg : OutputConfig)
      (h : Reachable om) : Reachable (UpdateConfig env om cfg).om
  | rotated (env : Env) (om : OutputManager) (h : Reachable om) :
      Reachable (RotateWithRecovery env om).om
  | forced (env : Env) (om : OutputManager) (h : Reachable om) :
      Reachable (ForceRotationIfNeeded env om).om
  | wasClosed (env : Env) (om : OutputManager) (h : Reachable om) :
      Reachable (Close env om).1
  | hookAdded (om : OutputManager) (hk : Hook) (h : Reachable om) :
      Reachable (AddRotationHook om hk)
  | hooksRemoved (om : OutputManager) (h : Reachable om) :
      Reachable (RemoveAllRotationHooks om)

/-- The structural invariant of a manager: any bound writer is the lumberjack
primitive built from the stored configuration; a manager without a writer is
not in file mode; and in file mode the stored configuration is valid with a
non-empty file path. -/
def WriterInv (om : OutputManager) : Prop :=
  (∀ w, om.fileWriter = some w → w = Writer.lumberjack om.config) ∧
  (om.fileWriter = none → om.isFileMode = false) ∧
  (om.isFileMode = true →
    validateConfig om.config = .ok () ∧ om.config.filePath ≠ "")

theorem setupFileOutput_ok {env : Env} {om om2 : OutputManager}
    {tr : List FsEffect} (h : setupFileOutput env om = (om2, none, tr)) :
    om2 = { om with fileWriter := some (Writer.lumberjack om.config) } := by
  unfold setupFileOutput at h
  by_cases hm : env.mkdirAllOk (goFilepathDir om.config.filePath) = true <;>
    simp [hm] at h
  simp_all

theorem setupFileOutput_err {env : Env} {om om2 : OutputManager} {e : GoError}
    {tr : List FsEffect} (h : setupFileOutput env om = (om2, some e, tr)) :
    om2 = om := by
  unfold setupFileOutput at h
  by_cases hm : env.mkdirAllOk (goFilepathDir om.config.filePath) = true <;>
    simp [hm] at h
  simp_all

/-- Closed form of `RotateWithRecovery` without a bound writer. -/
theorem rotateWithRecovery_noWriter {env : Env} {om : OutputManager}
    (hw : om.fileWriter = none) :
    RotateWithRecovery env om =
      ⟨om, some GoError.noFileWriterConfigured, [], [], []⟩ := by
  simp only [RotateWithRecovery, hw]

/-- Closed form of `RotateWithRecovery` behind a lumberjack writer: the event
is always built and dispatched; statistics move only on success; recovery runs
only on failure and rebinds the writer from the current configuration exactly
when the log directory can be (re)created. -/
theorem rotateWithRecovery_eq {env : Env} {om : OutputManager}
    {cfg : OutputConfig} (hw : om.fileWriter = some (Writer.lumberjack cfg)) :
    RotateWithRecovery env om =
      (let event : RotationEvent :=
        ⟨env.now, om.config.filePath, om.config.filePath,
          (env.statSize om.config.filePath).getD 0, env.rotateOk,
          if env.rotateOk then none else some GoError.rotateOsError⟩
      let runs := om.rotationHooks.map (fun h => superviseHook h event)
      let dir := goFilepathDir om.config.filePath
      if env.rotateOk then
        ⟨{ om with lastRotation := env.now,
                   rotationCount := om.rotationCount + 1 },
          none, [event], runs,
          [FsEffect.statFile om.config.filePath,
            FsEffect.rotateFile om.config.filePath]⟩
      else if env.mkdirAllOk dir then
        ⟨{ om with fileWriter := some (Writer.lumberjack om.config) },
          some (GoError.rotationFailedButRecoverySucceeded GoError.rotateOsError),
          [event], runs,
          [FsEffect.statFile om.config.filePath,
            FsEffect.rotateFile om.config.filePath,
            FsEffect.closeWriter, FsEffect.mkdirAll dir]⟩
      else
        ⟨om,
          some (GoError.rotationFailedAndRecoveryFailed GoError.rotateOsError
            (GoError.failedToCreateLogDirectory dir (GoError.mkdirOsError dir))),
          [event], runs,
          [FsEffect.statFile om.config.filePath,
            FsEffect.rotateFile om.config.filePath,
            FsEffect.closeWriter, FsEffect.mkdirAll dir]⟩) := by
  simp only [RotateWithRecovery, hw, triggerRotationHooks, attemptRecovery,
    setupFileOutput]
  by_cases hr : env.rotateOk = true
  · simp [hr]
    cases hstat : env.statSize om.config.filePath <;> simp [hstat]
  · by_cases hm : env.mkdirAllOk (goFilepathDir om.config.filePath) = true
    · simp [hr, hm, hw]
      cases hstat : env.statSize om.config.filePath <;> simp [hstat]
    · simp [hr, hm, hw]
      cases hstat : env.statSize om.config.filePath <;> simp [hstat]

theorem writerInv_new {env : Env} {cfg : OutputConfig} {om : OutputManager}
    (h : (NewOutputManager env cfg).om = some om) : WriterInv om := by
  simp only [NewOutputManager] at h
  split at h
  · simp at h
  · rename_i hval
    split at h
    · rename_i hpath
      split at h
      · simp at h
      · rename_i om2 tr hsetup
        have hom2 := setupFileOutput_ok hsetup
        simp only [NewResult.om] at h
        obtain rfl := Option.some_injective _ h
        subst hom2
        refine ⟨by simp, by simp, fun _ => ⟨by simpa using hval, hpath⟩⟩
    · rename_i hpath
      simp only [NewResult.om] at h
      obtain rfl := Option.some_injective _ h
      exact ⟨by simp, by simp, by simp⟩

theorem writerInv_update {env : Env} {om : OutputManager} {cfg : OutputConfig}
    (h : WriterInv om) : WriterInv (UpdateConfig env om cfg).om := by
  obtain ⟨h1, h2, h3⟩ := h
  simp only [UpdateConfig]
  split
  · exact ⟨h1, h2, h3⟩
  · rename_i hval
    have hval' : validateConfig cfg = Except.ok () := by simpa using hval
    split
    · rename_i w hw
      split
      · split
        · rename_i hpath
          split
          · rename_i om2 e tr hsetup
            have := setupFileOutput_err hsetup
            subst this
            exact ⟨by simp, by simp, by simp⟩
          · rename_i om2 tr hsetup
            have := setupFileOutput_ok hsetup
            subst this
            exact ⟨by simp, by simp, fun _ => ⟨hval', hpath⟩⟩
        · exact ⟨by simp, by simp, by simp⟩
      · exact ⟨h1, h2, h3⟩
    · rename_i hw
      split
      · rename_i hpath
        split
        · rename_i om2 e tr hsetup
          have := setupFileOutput_err hsetup
          subst this
          exact ⟨by simp [hw], by simp [h2 hw], by simp [h2 hw]⟩
        · rename_i om2 tr hsetup
          have := setupFileOutput_ok hsetup
          subst this
          exact ⟨by simp, by simp, fun _ => ⟨hval', hpath⟩⟩
      · exact ⟨by simp [hw], by simp [h2 hw], by simp [h2 hw]⟩

theorem writerInv_rotate {env : Env} {om : OutputManager}
    (h : WriterInv om) : WriterInv (RotateWithRecovery env om).om := by
  obtain ⟨h1, h2, h3⟩ := h
  match hw : om.fileWriter with
  | none =>
    rw [rotateWithRecovery_noWriter hw]
    exact ⟨h1, h2, h3⟩
  | some Writer.other =>
    exact absurd (h1 _ hw) (by simp)
  | some (Writer.lumberjack cfg) =>
    rw [rotateWithRecovery_eq hw]
    by_cases hr : env.rotateOk = true
    · simp only [hr, if_true]
      exact ⟨by simpa using h1, by simp [hw], by simpa using h3⟩
    · by_cases hm : env.mkdirAllOk (goFilepathDir om.config.filePath) = true
      · simp only [hr, hm, if_false, if_true, Bool.false_eq_true]
        exact ⟨by simp, by simp, by simpa using h3⟩
      · simp only [hr, hm, if_false, Bool.false_eq_true]
        exact ⟨h1, h2, h3⟩

theorem writerInv_force {env : Env} {om : OutputManager}
    (h : WriterInv om) : WriterInv (ForceRotationIfNeeded env om).om := by
  simp only [ForceRotationIfNeeded]
  split
  · exact h
  · split
    · exact h
    · split
      · exact writerInv_rotate h
      · exact h

theorem writerInv_close {env : Env} {om : OutputManager}
    (h : WriterInv om) : WriterInv (Close env om).1 := by
  unfold Close
  split <;> exact h

theorem writerInv_addHook {om : OutputManager} {hk : Hook}
    (h : WriterInv om) : WriterInv (AddRotationHook om hk) := by
  obtain ⟨h1, h2, h3⟩ := h
  exact ⟨by simpa [AddRotationHook] using h1,
    by simpa [AddRotationHook] using h2,
    by simpa [AddRotationHook] using h3⟩

theorem writerInv_removeHooks {om : OutputManager}
    (h : WriterInv om) : WriterInv (RemoveAllRotationHooks om) := by
  obtain ⟨h1, h2, h3⟩ := h
  exact ⟨by simpa [RemoveAllRotationHooks] using h1,
    by simpa [RemoveAllRotationHooks] using h2,
    by simpa [RemoveAllRotationHooks] using h3⟩

/-- Every reachable manager satisfies the writer invariant. -/
theorem reachable_writerInv {om : OutputManager} (h : Reachable om) :
    WriterInv om := by
  induction h with
  | created env cfg om h => exact writerInv_new h
  | updated env om cfg h ih => exact writerInv_update ih
  | rotated env om h ih => exact writerInv_rotate ih
  | forced env om h ih => exact writerInv_force ih
  | wasClosed env om h ih => exact writerInv_close ih
  | hookAdded om hk h ih => exact writerInv_addHook ih
  | hooksRemoved om h ih => exact writerInv_removeHooks ih

/-! ## Concrete fixtures -/

/-- Environment in which every collaborator call succeeds. -/
def envAllOk : Env := ⟨fun _ => true, fun _ => some 0, true, true, 7⟩

/-- Environment in which the rotation primitive fails but recovery works. -/
def envRotateFail : Env := ⟨fun _ => true, fun _ => some 0, false, true, 7⟩

/-- Environment in which both rotation and directory creation fail. -/
def envRotateAndMkdirFail : Env := ⟨fun _ => false, fun _ => some 0, false, true, 7⟩

/-- Environment in which closing works but directory creation fails. -/
def envCloseOkMkdirFail : Env := ⟨fun _ => false, fun _ => none, true, true, 7⟩

def cfgFile : OutputConfig := ⟨"logs/app.log", 10, 7, 5, true, false⟩

def cfgFile2 : OutputConfig := ⟨"other/app.log", 20, 7, 5, true, false⟩

def cfgConsole : OutputConfig := ⟨"", 100, 7, 5, true, false⟩

def mgrFile : OutputManager :=
  ⟨cfgFile, some (Writer.lumberjack cfgFile), true, [], 0, 0⟩

def mgrConsole : OutputManager := ⟨cfgConsole, none, false, [], 0, 0⟩

theorem mgrFile_created : (NewOutputManager envAllOk cfgFile).om = some mgrFile :=
  rfl

theorem mgrConsole_created :
    (NewOutputManager envAllOk cfgConsole).om = some mgrConsole := rfl

/-! ## Shared characterization of validation -/

theorem validateConfig_ne_ok_iff (c : OutputConfig) :
    validateConfig c ≠ .ok () ↔
      (c.filePath ≠ "" ∧
        (goFilepathDir c.filePath = "" ∨ goFilepathDir c.filePath = "." ∨
          goHasSuffix c.filePath "/" = true ∨ goHasSuffix c.filePath "\\" = true ∨
          goFilepathBase c.filePath = "" ∨ goFilepathBase c.filePath = "." ∨
          goFilepathBase c.filePath = "..")) ∨
      c.maxSize ≤ 0 ∨ c.maxAge < 0 ∨ c.maxBackups < 0 := by
  unfold validateConfig
  split_ifs with h1 h2 h3 h4 h5 h6 <;> simp_all <;> tauto

theorem validateConfig_numeric_bad {c : OutputConfig}
    (h : c.maxSize ≤ 0 ∨ c.maxAge < 0 ∨ c.maxBackups < 0) :
    ∃ e, validateConfig c = .error e := by
  unfold validateConfig
  split_ifs with h1 h2 h3 h4 h5 h6 <;>
    first
      | exact ⟨_, rfl⟩
      | exact absurd h (by tauto)

theorem goFilepathDir_of_no_slash {p : String} (h : '/' ∉ p.data) :
    goFilepathDir p = "." := by
  have hdrop : p.data.reverse.dropWhile (fun c => ¬ c = '/') = [] := by
    rw [List.dropWhile_eq_nil_iff]
    intro x hx
    simp only [decide_eq_true_eq]
    intro hcon
    exact h (by simpa [hcon] using List.mem_reverse.mp hx)
  unfold goFilepathDir takeThroughLastSlash
  rw [hdrop]
  rfl

theorem newOutputManager_some {env : Env} {cfg : OutputConfig}
    {om : OutputManager} (h : (NewOutputManager env cfg).om = some om) :
    (NewOutputManager env cfg).err = none ∧ om.config = cfg := by
  simp only [NewOutputManager] at h ⊢
  split at h <;> rename_i hval
  · simp at h
  · split at h <;> rename_i hpath
    · split at h
      · simp at h
      · rename_i om2 tr hsetup
        have hom2 := setupFileOutput_ok hsetup
        simp only [NewResult.om] at h
        obtain rfl := Option.some_injective _ h
        subst hom2
        simp [hval, hpath, hsetup]
    · simp only [NewResult.om] at h
      obtain rfl := Option.some_injective _ h
      simp [hval, hpath]

/-! ## Claim theorems, part 1 -/

/-- Claim C5: (amended).  Configuration validation fails exactly when: `filePath`
is non-empty and its computed directory portion is `""` or `"."`; `filePath`
is non-empty and ends in `/` or `\`; `filePath` is non-empty and its base
filename is `""`, `"."` or `".."`; `maxSizeMB <= 0`; `maxAgeDays < 0`; or
`maxBackups < 0` — and for every configuration outside these cases (including
any values of `compress` and `useLocalTime`) validation succeeds. -/
theorem c5_validation_characterization (c : OutputConfig) :
    validateConfig c ≠ .ok () ↔
      (c.filePath ≠ "" ∧
        (goFilepathDir c.filePath = "" ∨ goFilepathDir c.filePath = "." ∨
          goHasSuffix c.filePath "/" = true ∨ goHasSuffix c.filePath "\\" = true ∨
          goFilepathBase c.filePath = "" ∨ goFilepathBase c.filePath = "." ∨
          goFilepathBase c.filePath = "..")) ∨
      c.maxSize ≤ 0 ∨ c.maxAge < 0 ∨ c.maxBackups < 0 :=
  validateConfig_ne_ok_iff c

/-- Claim C5: witness: a configuration rejected for a non-positive `maxSize`,
through the characterization. -/
theorem c5_validation_characterization_witness :
    validateConfig ⟨"logs/app.log", 0, 7, 5, true, false⟩ ≠ .ok () :=
  (c5_validation_characterization ⟨"logs/app.log", 0, 7, 5, true, false⟩).mpr
    (Or.inr (Or.inl (by decide)))

/-- Claim C5: counterexample to the claim as stated: `"logs/.."` has directory
portion `"logs"` (neither empty nor `"."`), does not end in a path separator,
and all numeric fields are in range, yet validation fails (the base filename
is `".."`, a case the claim's list omits). -/
theorem c5_counterexample :
    validateConfig ⟨"logs/..", 1, 0, 0, false, false⟩ ≠ .ok () ∧
    goFilepathDir "logs/.." = "logs" ∧
    ¬(goFilepathDir "logs/.." = "" ∨ goFilepathDir "logs/.." = ".") ∧
    goHasSuffix "logs/.." "/" = false ∧
    goHasSuffix "logs/.." "\\" = false ∧
    (0 : Int) < 1 ∧ (0 : Int) ≤ 0 := by decide

/-- Claim C9: (implicit).  A non-empty `filePath` containing no directory
separator has computed directory portion `"."`, so validation rejects it with
the empty-directory error; consequently every reachable manager in file mode
has a file path containing an explicit `/` separator. -/
theorem c9_bare_filename_rejected :
    (∀ c : OutputConfig, c.filePath ≠ "" → '/' ∉ c.filePath.data →
      validateConfig c = .error GoError.dirCannotBeEmpty) ∧
    (∀ om : OutputManager, Reachable om → om.isFileMode = true →
      '/' ∈ om.config.filePath.data) := by
  have part1 : ∀ c : OutputConfig, c.filePath ≠ "" → '/' ∉ c.filePath.data →
      validateConfig c = .error GoError.dirCannotBeEmpty := by
    intro c hne hslash
    have hdir := goFilepathDir_of_no_slash hslash
    unfold validateConfig
    rw [if_pos ⟨hne, Or.inr hdir⟩]
  refine ⟨part1, ?_⟩
  intro om hr hfm
  obtain ⟨h1, h2, h3⟩ := reachable_writerInv hr
  obtain ⟨hok, hne⟩ := h3 hfm
  by_contra hslash
  rw [part1 om.config hne hslash] at hok
  exact Except.noConfusion hok

/-- Claim C9: witness: the bare filename `"app.log"` is rejected with the
empty-directory error, and a concretely constructed file-mode manager's path
contains a separator. -/
theorem c9_bare_filename_rejected_witness :
    validateConfig ⟨"app.log", 100, 7, 5, true, false⟩ =
      .error GoError.dirCannotBeEmpty ∧
    '/' ∈ mgrFile.config.filePath.data :=
  ⟨c9_bare_filename_rejected.1 ⟨"app.log", 100, 7, 5, true, false⟩
      (by decide) (by decide),
    c9_bare_filename_rejected.2 mgrFile
      (Reachable.created envAllOk cfgFile mgrFile mgrFile_created) rfl⟩

/-- Claim C10: (implicit).  Every reachable manager keeps the invariant that in
file mode its writer is the lumberjack primitive built from the stored
configuration, and therefore the "file writer does not support rotation"
branch of `RotateWithRecovery` never fires through the public interface. -/
theorem c10_no_unsupported_writer :
    ∀ om : OutputManager, Reachable om →
      (om.isFileMode = true →
        om.fileWriter = some (Writer.lumberjack om.config)) ∧
      (∀ env : Env,
        (RotateWithRecovery env om).err ≠
          some GoError.writerDoesNotSupportRotation) := by
  intro om hr
  obtain ⟨h1, h2, h3⟩ := reachable_writerInv hr
  constructor
  · intro hfm
    match hw : om.fileWriter with
    | none => exact absurd (h2 hw) (by simp [hfm])
    | some w => rw [h1 w hw]
  · intro env
    match hw : om.fileWriter with
    | none =>
      rw [rotateWithRecovery_noWriter hw]
      simp
    | some w =>
      have hlj := h1 w hw
      subst hlj
      rw [rotateWithRecovery_eq hw]
      by_cases hrot : env.rotateOk = true <;>
        by_cases hm : env.mkdirAllOk (goFilepathDir om.config.filePath) = true <;>
        simp [hrot, hm]

/-- Claim C10: witness: a freshly constructed file-mode manager is reachable, its
writer is the lumberjack primitive, and rotating never reports an unsupported
writer. -/
theorem c10_no_unsupported_writer_witness :
    mgrFile.fileWriter = some (Writer.lumberjack mgrFile.config) ∧
    (RotateWithRecovery envAllOk mgrFile).err ≠
      some GoError.writerDoesNotSupportRotation :=
  ⟨(c10_no_unsupported_writer mgrFile
      (Reachable.created envAllOk cfgFile mgrFile mgrFile_created)).1 rfl,
    (c10_no_unsupported_writer mgrFile
      (Reachable.created envAllOk cfgFile mgrFile mgrFile_created)).2 envAllOk⟩

/-- Claim C8:.  Construction validates before any filesystem side effect: with a
bad numeric field it fails with no directory-creation attempt; and it never
partially constructs — on any error no manager is returned, and a returned
manager comes with no error, carries the given configuration, and satisfies
the writer invariant. -/
theorem c8_construction_validates_first :
    ∀ (env : Env) (cfg : OutputConfig),
      ((cfg.maxSize ≤ 0 ∨ cfg.maxAge < 0 ∨ cfg.maxBackups < 0) →
        (NewOutputManager env cfg).om = none ∧
        (NewOutputManager env cfg).err.isSome = true ∧
        (NewOutputManager env cfg).trace = []) ∧
      ((NewOutputManager env cfg).err.isSome = true →
        (NewOutputManager env cfg).om = none) ∧
      (∀ om, (NewOutputManager env cfg).om = some om →
        (NewOutputManager env cfg).err = none ∧ om.config = cfg ∧
        WriterInv om) := by
  intro env cfg
  refine ⟨?_, ?_, fun om h =>
    ⟨(newOutputManager_some h).1, (newOutputManager_some h).2, writerInv_new h⟩⟩
  · intro hbad
    obtain ⟨e, he⟩ := validateConfig_numeric_bad hbad
    simp [NewOutputManager, he]
  · intro hsome
    cases hom : (NewOutputManager env cfg).om with
    | none => rfl
    | some om =>
      rw [(newOutputManager_some hom).1] at hsome
      exact absurd hsome (by simp)

/-- Claim C8: witness: with `maxSize = 0` construction fails with an empty effect
trace, and a successful construction yields error-free output carrying the
configuration. -/
theorem c8_construction_validates_first_witness :
    (NewOutputManager envAllOk ⟨"logs/app.log", 0, 7, 5, true, false⟩).om =
      none ∧
    (NewOutputManager envAllOk ⟨"logs/app.log", 0, 7, 5, true, false⟩).trace =
      [] ∧
    (NewOutputManager envAllOk cfgFile).err = none ∧
    mgrFile.config = cfgFile :=
  ⟨((c8_construction_validates_first envAllOk _).1 (Or.inl (by decide))).1,
    ((c8_construction_validates_first envAllOk _).1 (Or.inl (by decide))).2.2,
    ((c8_construction_validates_first envAllOk cfgFile).2.2 mgrFile
      mgrFile_created).1,
    ((c8_construction_validates_first envAllOk cfgFile).2.2 mgrFile
      mgrFile_created).2.1⟩

/-! ## Claim theorems, part 2 -/

/-- Claim C1: counterexample.  `UpdateConfig` is not atomic on rebind failure: on
a concretely constructed file-mode manager, updating to a valid configuration
in an environment where close succeeds but directory creation fails returns an
error, yet the stored configuration has been replaced by the new one, the
writer handle is gone, and the file-mode flag is cleared — a partial swap. -/
theorem c1_counterexample :
    (NewOutputManager envAllOk cfgFile).om = some mgrFile ∧
    (UpdateConfig envCloseOkMkdirFail mgrFile cfgFile2).err.isSome = true ∧
    (UpdateConfig envCloseOkMkdirFail mgrFile cfgFile2).om.config = cfgFile2 ∧
    cfgFile2 ≠ cfgFile ∧
    (UpdateConfig envCloseOkMkdirFail mgrFile cfgFile2).om.fileWriter = none ∧
    (UpdateConfig envCloseOkMkdirFail mgrFile cfgFile2).om.isFileMode = false :=
  ⟨mgrFile_created, rfl, rfl, by decide, rfl, rfl⟩

/-- Claim C1: (amended).  `UpdateConfig` is atomic on validation failure and on
close failure (the prior configuration, writer and file-mode flag are exactly
preserved and the error is returned), and the stored configuration is replaced
only after the close has succeeded; but when rebinding the new file output
fails after a successful close, the manager is left with the new configuration
stored, no writer bound and console mode — the error is returned but the swap
is partial.  On success the swap is complete. -/
theorem c1_update_config_amended :
    ∀ (env : Env) (om : OutputManager) (newConfig : OutputConfig),
      (∀ e, validateConfig newConfig = .error e →
        UpdateConfig env om newConfig =
          ⟨om, some (GoError.invalidNewConfiguration e), [], [], []⟩) ∧
      (validateConfig newConfig = .ok () → om.fileWriter.isSome = true →
        env.closeOk = false →
        UpdateConfig env om newConfig =
          ⟨om, some (GoError.failedToCloseCurrentFileWriter GoError.closeOsError),
            [], [], [FsEffect.closeWriter]⟩) ∧
      (validateConfig newConfig = .ok () → om.fileWriter.isSome = true →
        env.closeOk = true → newConfig.filePath ≠ "" →
        env.mkdirAllOk (goFilepathDir newConfig.filePath) = false →
        (UpdateConfig env om newConfig).err =
          some (GoError.failedToSetupNewFileOutput
            (GoError.failedToCreateLogDirectory
              (goFilepathDir newConfig.filePath)
              (GoError.mkdirOsError (goFilepathDir newConfig.filePath)))) ∧
        (UpdateConfig env om newConfig).om.config = newConfig ∧
        (UpdateConfig env om newConfig).om.fileWriter = none ∧
        (UpdateConfig env om newConfig).om.isFileMode = false) ∧
      ((UpdateConfig env om newConfig).err = none →
        (UpdateConfig env om newConfig).om.config = newConfig ∧
        (newConfig.filePath ≠ "" →
          (UpdateConfig env om newConfig).om.fileWriter =
            some (Writer.lumberjack newConfig) ∧
          (UpdateConfig env om newConfig).om.isFileMode = true)) := by
  intro env om newConfig
  refine ⟨?_, ?_, ?_, ?_⟩
  · intro e he
    simp [UpdateConfig, he]
  · intro hval hsome hclose
    match hw : om.fileWriter with
    | none => simp [hw] at hsome
    | some w => simp [UpdateConfig, hval, hw, hclose]
  · intro hval hsome hclose hpath hmk
    match hw : om.fileWriter with
    | none => simp [hw] at hsome
    | some w =>
      simp [UpdateConfig, hval, hw, hclose, hpath, setupFileOutput, hmk]
  · intro herr
    simp only [UpdateConfig] at herr ⊢
    split at herr <;> rename_i hval
    · simp at herr
    · split at herr <;> rename_i hw
      · split at herr <;> rename_i hclose
        · split at herr <;> rename_i hpath
          · split at herr
            · simp at herr
            · rename_i om2 tr hsetup
              have hom2 := setupFileOutput_ok hsetup
              subst hom2
              simp [hval, hw, hclose, hpath, hsetup]
          · simp [hval, hw, hclose, hpath]
        · simp at herr
      · split at herr <;> rename_i hpath
        · split at herr
          · simp at herr
          · rename_i om2 tr hsetup
            have hom2 := setupFileOutput_ok hsetup
            subst hom2
            simp [hval, hw, hpath, hsetup]
        · simp [hval, hw, hpath]

/-- Claim C1: witness: the close-failure branch at a concrete manager, with the
prior state exactly preserved. -/
theorem c1_update_config_amended_witness :
    UpdateConfig ⟨fun _ => true, fun _ => some 0, true, false, 7⟩ mgrFile
        cfgFile2 =
      ⟨mgrFile,
        some (GoError.failedToCloseCurrentFileWriter GoError.closeOsError),
        [], [], [FsEffect.closeWriter]⟩ :=
  ((c1_update_config_amended ⟨fun _ => true, fun _ => some 0, true, false, 7⟩
      mgrFile cfgFile2).2.1) (by decide) rfl rfl

/-- Claim C2:.  `RotateWithRecovery` fails fast with the no-file-writer error
when no writer is bound; behind a lumberjack writer it returns no error
exactly when the rotation primitive succeeded; on primitive failure it closes
and recreates the handle from the current configuration, returning the
recovered-error naming the original failure when recovery works, and a
composite error naming both failures when recovery also fails. -/
theorem c2_rotate_with_recovery :
    ∀ (env : Env) (om : OutputManager) (cfg : OutputConfig),
      (om.fileWriter = none →
        RotateWithRecovery env om =
          ⟨om, some GoError.noFileWriterConfigured, [], [], []⟩) ∧
      (om.fileWriter = some (Writer.lumberjack cfg) →
        ((RotateWithRecovery env om).err = none ↔ env.rotateOk = true) ∧
        (env.rotateOk = false →
          env.mkdirAllOk (goFilepathDir om.config.filePath) = true →
          (RotateWithRecovery env om).err =
            some (GoError.rotationFailedButRecoverySucceeded
              GoError.rotateOsError) ∧
          (RotateWithRecovery env om).om.fileWriter =
            some (Writer.lumberjack om.config) ∧
          (RotateWithRecovery env om).trace =
            [FsEffect.statFile om.config.filePath,
              FsEffect.rotateFile om.config.filePath, FsEffect.closeWriter,
              FsEffect.mkdirAll (goFilepathDir om.config.filePath)]) ∧
        (env.rotateOk = false →
          env.mkdirAllOk (goFilepathDir om.config.filePath) = false →
          (RotateWithRecovery env om).err =
            some (GoError.rotationFailedAndRecoveryFailed GoError.rotateOsError
              (GoError.failedToCreateLogDirectory
                (goFilepathDir om.config.filePath)
                (GoError.mkdirOsError (goFilepathDir om.config.filePath)))))) := by
  intro env om cfg
  refine ⟨fun hw => rotateWithRecovery_noWriter hw, fun hw => ?_⟩
  rw [rotateWithRecovery_eq hw]
  by_cases hrot : env.rotateOk = true <;>
    by_cases hm : env.mkdirAllOk (goFilepathDir om.config.filePath) = true <;>
    simp [hrot, hm]

/-- Claim C2: witness: fail-fast on a console manager, the recovered error on a
rotation failure with working recovery, and the composite error when recovery
fails too. -/
theorem c2_rotate_with_recovery_witness :
    RotateWithRecovery envAllOk mgrConsole =
      ⟨mgrConsole, some GoError.noFileWriterConfigured, [], [], []⟩ ∧
    (RotateWithRecovery envRotateFail mgrFile).err =
      some (GoError.rotationFailedButRecoverySucceeded GoError.rotateOsError) ∧
    (RotateWithRecovery envRotateAndMkdirFail mgrFile).err =
      some (GoError.rotationFailedAndRecoveryFailed GoError.rotateOsError
        (GoError.failedToCreateLogDirectory "logs"
          (GoError.mkdirOsError "logs"))) :=
  ⟨(c2_rotate_with_recovery envAllOk mgrConsole cfgConsole).1 rfl,
    (((c2_rotate_with_recovery envRotateFail mgrFile cfgFile).2 rfl).2.1 rfl
      rfl).1,
    by
      have h := ((c2_rotate_with_recovery envRotateAndMkdirFail mgrFile
        cfgFile).2 rfl).2.2 rfl rfl
      simpa using h⟩

/-- Claim C4:.  On every rotation attempt behind a lumberjack writer: if the
primitive succeeds, `rotationCount` is incremented by exactly one and
`lastRotationTime` is set to the timestamp recorded during the call (hence at
or after the call's start), both visible together through
`GetRotationStats`; if the primitive fails, both statistics are exactly
unchanged. -/
theorem c4_rotation_stats :
    ∀ (env : Env) (om : OutputManager) (cfg : OutputConfig),
      om.fileWriter = some (Writer.lumberjack cfg) →
      (env.rotateOk = true →
        GetRotationStats (RotateWithRecovery env om).om =
          (env.now, om.rotationCount + 1)) ∧
      (env.rotateOk = false →
        GetRotationStats (RotateWithRecovery env om).om =
          (om.lastRotation, om.rotationCount)) ∧
      (∀ callStart : Nat, callStart ≤ env.now → env.rotateOk = true →
        callStart ≤ (RotateWithRecovery env om).om.lastRotation) := by
  intro env om cfg hw
  rw [rotateWithRecovery_eq hw]
  refine ⟨?_, ?_, ?_⟩
  · intro hrot
    simp [hrot, GetRotationStats]
  · intro hrot
    by_cases hm : env.mkdirAllOk (goFilepathDir om.config.filePath) = true <;>
      simp [hrot, hm, GetRotationStats]
  · intro callStart hle hrot
    simp [hrot, hle]

/-- Claim C4: witness: after a successful rotation at a concrete manager the
statistics read `(now, 1)`, and after a failed one they are unchanged. -/
theorem c4_rotation_stats_witness :
    GetRotationStats (RotateWithRecovery envAllOk mgrFile).om = (7, 1) ∧
    GetRotationStats (RotateWithRecovery envRotateFail mgrFile).om = (0, 0) ∧
    5 ≤ (RotateWithRecovery envAllOk mgrFile).om.lastRotation :=
  ⟨by simpa using (c4_rotation_stats envAllOk mgrFile cfgFile rfl).1 rfl,
    by simpa using (c4_rotation_stats envRotateFail mgrFile cfgFile rfl).2.1 rfl,
    (c4_rotation_stats envAllOk mgrFile cfgFile rfl).2.2 5 (by decide) rfl⟩

/-! ## Claim theorems, part 3 -/

/-- Claim C3:.  `ForceRotationIfNeeded` returns success without rotating (state,
events and hooks untouched) when the manager is not in file mode, when
stat-ing the current file fails, or when the file size is strictly below
`maxSize * 1_048_576` bytes; and at or above that threshold it delegates to
`RotateWithRecovery`, performing exactly one rotation attempt. -/
theorem c3_force_rotation_threshold :
    ∀ (env : Env) (om : OutputManager) (cfg : OutputConfig),
      (om.isFileMode = false →
        ForceRotationIfNeeded env om = ⟨om, none, [], [], []⟩) ∧
      (om.isFileMode = true → om.fileWriter = some (Writer.lumberjack cfg) →
        (env.statSize om.config.filePath = none →
          ForceRotationIfNeeded env om =
            ⟨om, none, [], [], [FsEffect.statFile om.config.filePath]⟩) ∧
        (∀ size : Int, env.statSize om.config.filePath = some size →
          size < om.config.maxSize * 1048576 →
          ForceRotationIfNeeded env om =
            ⟨om, none, [], [], [FsEffect.statFile om.config.filePath]⟩) ∧
        (∀ size : Int, env.statSize om.config.filePath = some size →
          om.config.maxSize * 1048576 ≤ size →
          (ForceRotationIfNeeded env om).om = (RotateWithRecovery env om).om ∧
          (ForceRotationIfNeeded env om).err =
            (RotateWithRecovery env om).err ∧
          (ForceRotationIfNeeded env om).hookRuns =
            (RotateWithRecovery env om).hookRuns ∧
          ((ForceRotationIfNeeded env om).trace.countP
            (fun eff => match eff with
              | FsEffect.rotateFile _ => true
              | _ => false)) = 1)) := by
  intro env om cfg
  constructor
  · intro hfm
    simp [ForceRotationIfNeeded, hfm]
  · intro hfm hw
    have h1024 : om.config.maxSize * 1024 * 1024 = om.config.maxSize * 1048576 := by
      ring
    refine ⟨?_, ?_, ?_⟩
    · intro hstat
      simp [ForceRotationIfNeeded, hfm, hw, hstat]
    · intro size hstat hlt
      have hcond : ¬ om.config.maxSize * 1024 * 1024 ≤ size := by omega
      simp [ForceRotationIfNeeded, hfm, hw, hstat, hcond]
    · intro size hstat hge
      have hrot_count :
          ((RotateWithRecovery env om).trace.countP
            (fun eff => match eff with
              | FsEffect.rotateFile _ => true
              | _ => false)) = 1 := by
        rw [rotateWithRecovery_eq hw]
        by_cases hrot : env.rotateOk = true <;>
          by_cases hm :
            env.mkdirAllOk (goFilepathDir om.config.filePath) = true <;>
          simp [hrot, hm, List.countP_cons]
      have hcond : om.config.maxSize * 1024 * 1024 ≤ size := by omega
      simp [ForceRotationIfNeeded, hfm, hw, hstat, hcond, List.countP_cons,
        hrot_count]

/-- Claim C3: witness: below the threshold nothing happens, at the threshold
exactly one rotation attempt is made and recorded in the statistics. -/
theorem c3_force_rotation_threshold_witness :
    ForceRotationIfNeeded
        ⟨fun _ => true, fun _ => some 9, true, true, 7⟩ mgrFile =
      ⟨mgrFile, none, [], [], [FsEffect.statFile "logs/app.log"]⟩ ∧
    ((ForceRotationIfNeeded
        ⟨fun _ => true, fun _ => some 10485760, true, true, 7⟩ mgrFile).trace.countP
      (fun eff => match eff with
        | FsEffect.rotateFile _ => true
        | _ => false)) = 1 :=
  ⟨by
      have h := ((c3_force_rotation_threshold
        ⟨fun _ => true, fun _ => some 9, true, true, 7⟩ mgrFile cfgFile).2
        rfl rfl).2.1 9 rfl (by decide)
      simpa using h,
    (((c3_force_rotation_threshold
        ⟨fun _ => true, fun _ => some 10485760, true, true, 7⟩ mgrFile
        cfgFile).2 rfl rfl).2.2 10485760 rfl (by decide)).2.2.2⟩

def hookNormal : Hook := ⟨1, fun _ => HookOutcome.normal⟩

def hookPanics : Hook := ⟨2, fun _ => HookOutcome.panics "test panic in hook"⟩

def mgrHooked : OutputManager :=
  ⟨cfgFile, some (Writer.lumberjack cfgFile), true, [hookPanics, hookNormal],
    0, 0⟩

/-- Claim C6:.  Every rotation attempt behind a lumberjack writer dispatches
exactly one event; its `success` field equals the primitive's outcome and its
`error` field is present exactly when `success` is false; the hook runs are
precisely one supervised invocation of each hook registered at dispatch time,
in order, each receiving that event; and after `RemoveAllRotationHooks` a
subsequent rotation invokes zero hooks. -/
theorem c6_hooks_observe_every_rotation :
    ∀ (env : Env) (om : OutputManager) (cfg : OutputConfig),
      om.fileWriter = some (Writer.lumberjack cfg) →
      ((RotateWithRecovery env om).events.length = 1 ∧
        (∀ e ∈ (RotateWithRecovery env om).events,
          e.success = env.rotateOk ∧
          (e.error.isSome = true ↔ e.success = false) ∧
          (RotateWithRecovery env om).hookRuns =
            om.rotationHooks.map (fun hk => superviseHook hk e))) ∧
      (RotateWithRecovery env (RemoveAllRotationHooks om)).hookRuns = [] := by
  intro env om cfg hw
  constructor
  · rw [rotateWithRecovery_eq hw]
    by_cases hrot : env.rotateOk = true <;>
      by_cases hm : env.mkdirAllOk (goFilepathDir om.config.filePath) = true <;>
      simp [hrot, hm]
  · have hw2 : (RemoveAllRotationHooks om).fileWriter =
        some (Writer.lumberjack cfg) := by
      simpa [RemoveAllRotationHooks] using hw
    rw [rotateWithRecovery_eq hw2]
    by_cases hrot : env.rotateOk = true <;>
      by_cases hm : env.mkdirAllOk (goFilepathDir om.config.filePath) = true <;>
      simp [hrot, hm, RemoveAllRotationHooks]

/-- Claim C6: witness: one event on a concrete rotation, with hooks removed no
hook runs. -/
theorem c6_hooks_observe_every_rotation_witness :
    (RotateWithRecovery envAllOk mgrHooked).events.length = 1 ∧
    (RotateWithRecovery envAllOk (RemoveAllRotationHooks mgrHooked)).hookRuns =
      [] :=
  ⟨(c6_hooks_observe_every_rotation envAllOk mgrHooked cfgFile rfl).1.1,
    (c6_hooks_observe_every_rotation envAllOk mgrHooked cfgFile rfl).2⟩

/-- Claim C7:.  Hook panics are individually contained: for every dispatched
event, the i-th hook run is the supervised invocation of the i-th registered
hook alone (so a panic in any other hook cannot prevent it); the error
returned by the rotation is independent of the registered hooks; and a
supervised invocation always completes, recording the event and the hook
identity whatever the hook body does. -/
theorem c7_hook_panic_isolated :
    ∀ (env : Env) (om : OutputManager) (cfg : OutputConfig),
      om.fileWriter = some (Writer.lumberjack cfg) →
      (∀ e ∈ (RotateWithRecovery env om).events,
        ∀ i : Nat, ∀ hi : i < om.rotationHooks.length,
          (RotateWithRecovery env om).hookRuns[i]? =
            some (superviseHook (om.rotationHooks.get ⟨i, hi⟩) e)) ∧
      (∀ hooks : List Hook,
        (RotateWithRecovery env { om with rotationHooks := hooks }).err =
          (RotateWithRecovery env om).err) ∧
      (∀ hk : Hook, ∀ e : RotationEvent,
        (superviseHook hk e).event = e ∧ (superviseHook hk e).hookId = hk.id) := by
  intro env om cfg hw
  refine ⟨?_, ?_, ?_⟩
  · intro e he i hi
    rw [rotateWithRecovery_eq hw] at he ⊢
    by_cases hrot : env.rotateOk = true <;>
      by_cases hm : env.mkdirAllOk (goFilepathDir om.config.filePath) = true <;>
      · simp [hrot, hm] at he
        subst he
        simp [hrot, hm, List.getElem?_map, List.getElem?_eq_getElem hi]
  · intro hooks
    have hw2 : ({ om with rotationHooks := hooks } :
        OutputManager).fileWriter = some (Writer.lumberjack cfg) := hw
    rw [rotateWithRecovery_eq hw, rotateWithRecovery_eq hw2]
    by_cases hrot : env.rotateOk = true <;>
      by_cases hm : env.mkdirAllOk (goFilepathDir om.config.filePath) = true <;>
      simp [hrot, hm]
  · intro hk e
    unfold superviseHook runHook
    cases hk.behavior e <;> simp

/-- Claim C7: witness: with a panicking hook registered first and a normal hook
second, the second hook still runs (and does not panic), the first hook's
panic is recorded as contained, and the rotation error equals that of the
same manager with no hooks at all. -/
theorem c7_hook_panic_isolated_witness :
    (RotateWithRecovery envAllOk mgrHooked).hookRuns[1]? =
      some ⟨1, ⟨7, "logs/app.log", "logs/app.log", 0, true, none⟩, false⟩ ∧
    (RotateWithRecovery envAllOk mgrHooked).hookRuns[0]? =
      some ⟨2, ⟨7, "logs/app.log", "logs/app.log", 0, true, none⟩, true⟩ ∧
    (RotateWithRecovery envAllOk
        { mgrHooked with rotationHooks := [] }).err =
      (RotateWithRecovery envAllOk mgrHooked).err := by
  have h := c7_hook_panic_isolated envAllOk mgrHooked cfgFile rfl
  refine ⟨?_, ?_, h.2.1 []⟩
  · have := h.1 ⟨7, "logs/app.log", "logs/app.log", 0, true, none⟩
      (by decide) 1 (by decide)
    simpa using this
  · have := h.1 ⟨7, "logs/app.log", "logs/app.log", 0, true, none⟩
      (by decide) 0 (by decide)
    simpa using this

end Logger
